import Mathlib

/-!
Verification of the calendar-grid and form logic of
`src/components/AddTransactionModal.jsx` (SmartLog).

The JavaScript component is embedded shallowly:

* JS `Date` values are modelled as plain proleptic-Gregorian calendar dates
  (`JsDate`), i.e. the behaviour of a runtime in the UTC zone; times of day
  never matter to the component (it only reads year/month/day fields).
* The numeric `new Date(year, monthIndex, day)` constructor normalises
  out-of-range month indices and days by rollover; this is `jsMakeDate`,
  built from month-total arithmetic and day normalisation (`normDayB`).
  The legacy two-digit-year remapping (0–99 to 1900+y) is not modelled;
  the component only ever feeds four-digit years parsed from `dd/mm/yyyy`.
* ISO-string construction and parsing (`formatDate`, `split('/')`,
  `new Date("yyyy-mm-dd")`) round-trip componentwise; they are modelled on
  components, with `Option JsDate` where `none` stands for Invalid Date
  (every field `NaN`).
* React state is the record `ModalState`; each handler is a function from
  state to state (plus, for submission, the list of records dispatched to
  the transaction store).  Rendering performs no state updates, so the
  date-picker render is a pure function of the state.
-/

namespace SmartLog

/-- Leap-year rule of the (proleptic) Gregorian calendar used by JS `Date`. -/
def isLeap (y : Int) : Bool :=
  (y % 4 == 0 && y % 100 != 0) || y % 400 == 0

/-- Number of days of 1-based month `m` of year `y` (0 for an invalid month). -/
def monthLen (y m : Int) : Nat :=
  if m = 1 then 31
  else if m = 2 then (if isLeap y then 29 else 28)
  else if m = 3 then 31
  else if m = 4 then 30
  else if m = 5 then 31
  else if m = 6 then 30
  else if m = 7 then 31
  else if m = 8 then 31
  else if m = 9 then 30
  else if m = 10 then 31
  else if m = 11 then 30
  else if m = 12 then 31
  else 0

/-- A calendar date as a JS `Date` holds it: full year, 1-based month, day. -/
structure JsDate where
  year : Int
  month : Int
  day : Int
deriving DecidableEq

/-- The month before (year `y`, 1-based month `m`). -/
def monthPred (y m : Int) : Int × Int :=
  if m = 1 then (y - 1, 12) else (y, m - 1)

/-- The month after (year `y`, 1-based month `m`). -/
def monthSucc (y m : Int) : Int × Int :=
  if m = 12 then (y + 1, 1) else (y, m + 1)

/-- Day-of-month normalisation of JS `Date`: day numbers outside
`1..monthLen` roll over into adjacent months.  Fuel-driven recursion; every
step moves the day at least 28 closer to range, so the generous fuel used by
`jsMakeDateT` always suffices. -/
def normDayB : Nat → Int → Int → Int → JsDate
  | 0, y, m, d => ⟨y, m, d⟩
  | fuel + 1, y, m, d =>
    if d < 1 then
      normDayB fuel (monthPred y m).1 (monthPred y m).2
        (d + (monthLen (monthPred y m).1 (monthPred y m).2 : Int))
    else if (monthLen y m : Int) < d then
      normDayB fuel (monthSucc y m).1 (monthSucc y m).2 (d - (monthLen y m : Int))
    else ⟨y, m, d⟩

/-- Date built from a month total `t = year * 12 + monthIndex` and a day
number `d`, exactly the normalisation the JS `Date(year, monthIndex, day)`
constructor performs. -/
def jsMakeDateT (t d : Int) : JsDate :=
  normDayB (d.natAbs + 24) (t / 12) (t % 12 + 1) d

/-- The JS numeric constructor `new Date(y, mIdx, d)` (month index 0-based),
with rollover of out-of-range months and days. -/
def jsMakeDate (y mIdx d : Int) : JsDate :=
  jsMakeDateT (y * 12 + mIdx) d

/-- Line 162 of the source: `new Date(yyyy, mm, 0).getDate()` — day 0 of the
month after `m` is the last day of month `m`. -/
def daysInMonthJS (y m : Int) : Nat :=
  (jsMakeDate y m 0).day.toNat

/-- Days of year `y` strictly before 1-based month `m` (0 for invalid `m`). -/
def daysBeforeMonth (y m : Int) : Nat :=
  if m = 1 then 0
  else if m = 2 then 31
  else if m = 3 then 59 + (if isLeap y then 1 else 0)
  else if m = 4 then 90 + (if isLeap y then 1 else 0)
  else if m = 5 then 120 + (if isLeap y then 1 else 0)
  else if m = 6 then 151 + (if isLeap y then 1 else 0)
  else if m = 7 then 181 + (if isLeap y then 1 else 0)
  else if m = 8 then 212 + (if isLeap y then 1 else 0)
  else if m = 9 then 243 + (if isLeap y then 1 else 0)
  else if m = 10 then 273 + (if isLeap y then 1 else 0)
  else if m = 11 then 304 + (if isLeap y then 1 else 0)
  else if m = 12 then 334 + (if isLeap y then 1 else 0)
  else 0

/-- Rata-die day number of a (normalised) Gregorian date; day 1 is
0001-01-01, which was a Monday. -/
def rataDie (y m d : Int) : Int :=
  365 * (y - 1) + (y - 1) / 4 - (y - 1) / 100 + (y - 1) / 400
    + (daysBeforeMonth y m : Int) + d

/-- JS `getDay()`: weekday with Sunday = 0.  Day 1 of the rata-die count is a
Monday, so the residue mod 7 is already on the Sunday-0 scale. -/
def dowNat (dt : JsDate) : Nat :=
  ((rataDie dt.year dt.month dt.day) % 7).toNat

/-- Line 163 of the source: `new Date(yyyy, mm - 1, 1).getDay()`. -/
def firstWeekdayJS (y m : Int) : Nat :=
  dowNat (jsMakeDate y (m - 1) 1)

/-- One cell of the rendered month grid: a padding cell (lines 166-168) or a
day button with its number and selection flag (lines 170-188). -/
inductive Cell where
  | empty : Cell
  | day (d : Nat) (isSelected : Bool) : Cell
deriving DecidableEq

/-- Line 171, `i === parseInt(dd)`: the selection comparison.  `none` models
a `NaN` day (never equal to any number). -/
def selMatch (sel : Option Int) (d : Nat) : Bool :=
  match sel with
  | some s => (d : Int) == s
  | none => false

/-- The grid-building loops of `renderDatePicker` (lines 162-188): push
`firstDayOfMonth` empty cells, then day buttons `1..daysInMonth`, marking
the one matching the selected day. -/
def buildGrid (y m : Int) (sel : Option Int) : List Cell :=
  let fw := firstWeekdayJS y m
  let n := daysInMonthJS y m
  let empties := (List.range fw).foldl (fun a _ => a ++ [Cell.empty]) []
  (List.range n).foldl (fun a i => a ++ [Cell.day (i + 1) (selMatch sel (i + 1))]) empties

/-- Componentwise model of `new Date("yyyy-mm-dd")`: an ISO date string
parses to the written date when the components are calendar-valid and to
Invalid Date (`none`) otherwise. -/
def jsParseISO (y m d : Int) : Option JsDate :=
  if 1 ≤ m ∧ m ≤ 12 ∧ 1 ≤ d ∧ d ≤ (monthLen y m : Int) then some ⟨y, m, d⟩ else none

/-- Clicking day `d` (line 176) builds the string `yyyy-mm-dd`, which
`handleDateChange`/`formatDate` (lines 19-25, 151-154) parse back and
re-extract componentwise. -/
def resolveDayClick (y m d : Int) : Option JsDate :=
  (jsParseISO y m d).map (fun dt => ⟨dt.year, dt.month, dt.day⟩)

/-- Value of a digit string, most significant digit first. -/
def digitsVal (cs : List Char) : Nat :=
  cs.foldl (fun a c => 10 * a + (c.toNat - '0'.toNat)) 0

/-- JS `parseFloat` on the character set reachable in the amount field
(digits, dots and signs; the sanitiser of `handleAmountChange` strips
everything else, so exponents and infinities can never appear): the longest
numeric prefix, `none` for `NaN`.  The value is kept as an exact scaled
decimal, the pair `(n, k)` denoting `n / 10 ^ k`; rounding to IEEE doubles
is not modelled (it could only matter for amounts below `5e-324`). -/
def jsParseFloat (s : String) : Option (Int × Nat) :=
  let cs := s.toList.dropWhile (fun c => c.isWhitespace)
  let signed : Int × List Char :=
    match cs with
    | '-' :: r => (-1, r)
    | '+' :: r => (1, r)
    | _ => (1, cs)
  let ip := signed.2.takeWhile (fun c => c.isDigit)
  let rest := signed.2.dropWhile (fun c => c.isDigit)
  let fp :=
    match rest with
    | '.' :: r => r.takeWhile (fun c => c.isDigit)
    | _ => []
  if ip = [] ∧ fp = [] then none
  else some (signed.1 * ((digitsVal ip : Int) * 10 ^ fp.length + (digitsVal fp : Int)), fp.length)

/-- JS `String.prototype.trim`: strip whitespace from both ends.  (The
built-in `String.trim` of the library is semantically the same but does not
reduce inside the kernel, so the list-level definition is used.) -/
def jsTrim (s : String) : String :=
  String.mk (((s.data.dropWhile Char.isWhitespace).reverse.dropWhile Char.isWhitespace).reverse)

/-- The `form` state object (lines 30-36).  The date is stored by the source
as a `dd/mm/yyyy` string; it is modelled componentwise, `none` standing for
the `NaN/NaN/NaN` string printed from an Invalid Date. -/
structure TxForm where
  amount : String
  category : String
  type : String
  date : Option JsDate
  note : String
deriving DecidableEq

/-- The validation error object (line 39 and `validateForm`): at most one
message per field. -/
structure ErrorMap where
  amount : Option String
  category : Option String
deriving DecidableEq

/-- The React state of the modal (lines 30-43). -/
structure ModalState where
  form : TxForm
  errors : ErrorMap
  showCategoryDropdown : Bool
  showCustomCategoryInput : Bool
  customCategory : String
  showDatePicker : Bool
  isSubmitting : Bool
  isVisible : Bool
deriving DecidableEq

/-- A transaction record as dispatched to the store (lines 97-101);
`amount` is `parseFloat` of the field, `none` standing for `NaN`. -/
structure Tx where
  id : Int
  amount : Option (Int × Nat)
  category : String
  type : String
  date : Option JsDate
  note : String
deriving DecidableEq

/-- Lines 6-17. -/
def defaultCategories : List String :=
  ["Food", "Entertainment", "Utilities", "Transport", "Shopping",
   "Health", "Education", "Salary", "Gift", "Investment"]

/-- Insertion-ordered deduplication, as `[...new Set(l)]` performs. -/
def jsUniqueAux : List String → List String → List String
  | _, [] => []
  | seen, x :: xs =>
    if x ∈ seen then jsUniqueAux seen xs else x :: jsUniqueAux (x :: seen) xs

/-- JS `[...new Set(l)]`. -/
def jsUnique (l : List String) : List String :=
  jsUniqueAux [] l

/-- Line 48: `[...new Set(transactions.map(t => t.category))]`. -/
def existingCategories (ts : List Tx) : List String :=
  jsUnique (ts.map (fun t => t.category))

/-- Line 49: defaults plus the existing categories not already among them. -/
def allCategories (ts : List Tx) : List String :=
  defaultCategories ++ (existingCategories ts).filter (fun c => !(defaultCategories.contains c))

/-- Lexicographic comparison of character lists by code unit, the order the
default JS sort comparator induces on strings. -/
def charListLt : List Char → List Char → Bool
  | _, [] => false
  | [], _ :: _ => true
  | a :: as, b :: bs =>
    if a.toNat < b.toNat then true
    else if b.toNat < a.toNat then false
    else charListLt as bs

/-- JS string comparison `a < b`. -/
def jsStrLt (a b : String) : Bool :=
  charListLt a.data b.data

/-- One insertion step of the sort. -/
def insertSorted (x : String) : List String → List String
  | [] => [x]
  | y :: ys => if jsStrLt x y then x :: y :: ys else y :: insertSorted x ys

/-- Sorting by the string order, as `Array.prototype.sort()` with its default
string comparator.  ECMAScript fixes only the comparator, not the algorithm;
an insertion sort is used here so the definition reduces in the kernel.  The
claims about the category list only use that sorting permutes it. -/
def jsSortStrings (l : List String) : List String :=
  l.foldr insertSorted []

/-- Line 50: `[...new Set(allCategories)].sort()`. -/
def categoriesList (ts : List Tx) : List String :=
  jsSortStrings (jsUnique (allCategories ts))

/-- Line 84: `!form.amount || parseFloat(form.amount) <= 0`.  A `NaN` parse
(`none`) compares false, exactly as `NaN <= 0` does. -/
def amountInvalid (f : TxForm) : Bool :=
  f.amount == "" ||
    (match jsParseFloat f.amount with
     | some v => decide (v.1 ≤ 0)
     | none => false)

/-- Lines 82-88: the error object `validateForm` builds and stores. -/
def validateForm (f : TxForm) : ErrorMap :=
  { amount := if amountInvalid f then some "Please enter a valid amount" else none,
    category := if jsTrim f.category = "" then some "Category is required" else none }

/-- Lines 30-36 and 104-110: a fresh form dated today. -/
def initForm (today : JsDate) : TxForm :=
  { amount := "", category := "", type := "Expense", date := some today, note := "" }

/-- Lines 90-114, `handleSubmit`: validate; on failure store the errors and
stop; on success dispatch one record, reset the form and close.  The pair
component lists the records handed to `addTransaction`. -/
def handleSubmit (today : JsDate) (newId : Int) (st : ModalState) : ModalState × List Tx :=
  let e := validateForm st.form
  if e.amount = none ∧ e.category = none then
    ({ st with
        form := initForm today,
        errors := { amount := none, category := none },
        isSubmitting := false,
        isVisible := false },
     [{ id := newId, amount := jsParseFloat st.form.amount, category := st.form.category,
        type := st.form.type, date := st.form.date, note := st.form.note }])
  else
    ({ st with errors := e }, [])

/-- Lines 143-149, `handleCustomCategorySave`: only a nonempty-after-trim
input saves; the guard body is skipped otherwise. -/
def handleCustomCategorySave (st : ModalState) : ModalState :=
  if jsTrim st.customCategory = "" then st
  else
    { st with
        form := { st.form with category := st.customCategory },
        showCustomCategoryInput := false,
        showCategoryDropdown := false }

/-- Lines 151-154, `handleDateChange`: store the re-formatted date and close
the picker. -/
def handleDateChange (st : ModalState) (d : Option JsDate) : ModalState :=
  { st with form := { st.form with date := d }, showDatePicker := false }

/-- The click handler of a day button (line 176), applied to the state. -/
def clickDay (st : ModalState) (d : Int) : ModalState :=
  match st.form.date with
  | some cur => handleDateChange st (resolveDayClick cur.year cur.month d)
  | none => handleDateChange st none

/-- The month grid `renderDatePicker` lays out, as a function of the state:
the displayed month and the selected day both come from `form.date`
(lines 157-188).  A `NaN` date yields empty loops, hence no cells. -/
def renderDatePickerGrid (st : ModalState) : List Cell :=
  match st.form.date with
  | some cur => buildGrid cur.year cur.month (some cur.day)
  | none => []

/-- Lines 195-223: the month-navigation buttons do
`setMonth(getMonth() ± 1)` on the current date and store the result, i.e.
rebuild a date from the same year and day with the shifted month index. -/
def shiftMonthJS (cur : JsDate) (delta : Int) : JsDate :=
  jsMakeDate cur.year (cur.month - 1 + delta) cur.day

/-- Date-constructor month normalisation on a 1-based month: the
(year, month) pair the rollover semantics actually display. -/
def normYM (y m : Int) : Int × Int :=
  ((y * 12 + (m - 1)) / 12, (y * 12 + (m - 1)) % 12 + 1)

/-- Selection flag of a cell. -/
def cellSelected : Cell → Bool
  | Cell.day _ s => s
  | Cell.empty => false

/-! ### Sample states used by concrete instantiations -/

/-- A modal state with the picker open on 10 March 2024. -/
def dateState : ModalState :=
  { form := { amount := "", category := "", type := "Expense",
              date := some ⟨2024, 3, 10⟩, note := "" },
    errors := { amount := none, category := none },
    showCategoryDropdown := false, showCustomCategoryInput := false,
    customCategory := "", showDatePicker := true,
    isSubmitting := false, isVisible := true }

/-- A modal state on 15 March 2024 with some fields populated. -/
def stateA : ModalState :=
  { form := { amount := "12.25", category := "Food", type := "Expense",
              date := some ⟨2024, 3, 15⟩, note := "lunch" },
    errors := { amount := none, category := none },
    showCategoryDropdown := false, showCustomCategoryInput := false,
    customCategory := "", showDatePicker := true,
    isSubmitting := false, isVisible := true }

/-- Another state with the same date as `stateA` but every other mutable
field different. -/
def stateB : ModalState :=
  { form := { amount := "7", category := "Gift", type := "Income",
              date := some ⟨2024, 3, 15⟩, note := "" },
    errors := { amount := some "Please enter a valid amount", category := none },
    showCategoryDropdown := true, showCustomCategoryInput := true,
    customCategory := "draft", showDatePicker := false,
    isSubmitting := true, isVisible := false }

/-- A state whose custom-category input holds only whitespace. -/
def blankCustomState : ModalState :=
  { form := { amount := "5", category := "Food", type := "Expense",
              date := some ⟨2024, 3, 15⟩, note := "" },
    errors := { amount := none, category := none },
    showCategoryDropdown := true, showCustomCategoryInput := true,
    customCategory := "   ", showDatePicker := false,
    isSubmitting := false, isVisible := true }

/-- A state whose amount field holds the lone dot `.` (reachable by pasting
`..`, which the sanitiser reduces to `.`), with a valid category. -/
def dotAmountState : ModalState :=
  { form := { amount := ".", category := "Food", type := "Expense",
              date := some ⟨2024, 3, 15⟩, note := "" },
    errors := { amount := none, category := none },
    showCategoryDropdown := false, showCustomCategoryInput := false,
    customCategory := "", showDatePicker := false,
    isSubmitting := false, isVisible := true }

/-- A transaction of a non-default category. -/
def sampleTx : Tx :=
  { id := 1, amount := some (5, 0), category := "Coffee", type := "Expense",
    date := some ⟨2024, 3, 1⟩, note := "" }

/-- A store with one transaction of a non-default category. -/
def sampleTxs : List Tx :=
  [sampleTx]

/-! ### Helper lemmas about the date model -/

theorem monthLen_bounds (y m : Int) (h1 : 1 ≤ m) (h2 : m ≤ 12) :
    28 ≤ monthLen y m ∧ monthLen y m ≤ 31 := by
  interval_cases m <;> by_cases hL : isLeap y <;> norm_num [monthLen, hL]

theorem normDayB_stop (fuel : Nat) (y m d : Int) (h0 : 0 < fuel)
    (h1 : 1 ≤ d) (h2 : d ≤ (monthLen y m : Int)) :
    normDayB fuel y m d = ⟨y, m, d⟩ := by
  obtain ⟨f, rfl⟩ : ∃ f, fuel = f + 1 := ⟨fuel - 1, by omega⟩
  rw [normDayB, if_neg (by omega), if_neg (by omega)]

theorem normDayB_back (fuel : Nat) (y m d : Int) (h0 : 0 < fuel) (h : d < 1) :
    normDayB fuel y m d =
      normDayB (fuel - 1) (monthPred y m).1 (monthPred y m).2
        (d + (monthLen (monthPred y m).1 (monthPred y m).2 : Int)) := by
  obtain ⟨f, rfl⟩ : ∃ f, fuel = f + 1 := ⟨fuel - 1, by omega⟩
  rw [normDayB, if_pos h]
  norm_num

theorem monthPred_of_succ (y m : Int) (h1 : 1 ≤ m) :
    monthPred y (m + 1) = (y, m) := by
  unfold monthPred
  rw [if_neg (by omega)]
  norm_num

theorem jsMakeDateT_day0 (y m : Int) (h1 : 1 ≤ m) (h2 : m ≤ 12) :
    jsMakeDateT (y * 12 + m) 0 = ⟨y, m, (monthLen y m : Int)⟩ := by
  unfold jsMakeDateT
  have hf : (0 : Int).natAbs + 24 = 24 := rfl
  rw [hf]
  rcases eq_or_lt_of_le h2 with h12 | h11
  · have hd : (y * 12 + m) / 12 = y + 1 := by omega
    have he : (y * 12 + m) % 12 = 0 := by omega
    rw [hd, he]
    norm_num
    rw [normDayB_back 24 (y + 1) 1 0 (by norm_num) (by norm_num)]
    have hp : monthPred (y + 1) 1 = (y, 12) := by
      unfold monthPred
      rw [if_pos rfl]
      norm_num
    rw [hp]
    have hm : monthLen y 12 = 31 := by norm_num [monthLen]
    rw [show m = (12 : Int) from h12.symm ▸ rfl]
    rw [hm]
    norm_num
    exact normDayB_stop 23 y 12 31 (by norm_num) (by norm_num) (by rw [hm]; norm_num)
  · have hd : (y * 12 + m) / 12 = y := by omega
    have he : (y * 12 + m) % 12 = m := by omega
    rw [hd, he]
    rw [normDayB_back 24 y (m + 1) 0 (by norm_num) (by norm_num)]
    rw [monthPred_of_succ y m h1]
    have hb := monthLen_bounds y m h1 h2
    norm_num
    exact normDayB_stop 23 y m (monthLen y m) (by norm_num) (by omega) le_rfl

theorem jsMakeDateT_day1 (y m : Int) (h1 : 1 ≤ m) (h2 : m ≤ 12) :
    jsMakeDateT (y * 12 + (m - 1)) 1 = ⟨y, m, 1⟩ := by
  unfold jsMakeDateT
  have hf : (1 : Int).natAbs + 24 = 25 := rfl
  have hd : (y * 12 + (m - 1)) / 12 = y := by omega
  have he : (y * 12 + (m - 1)) % 12 = m - 1 := by omega
  rw [hf, hd, he]
  have hm : m - 1 + 1 = m := by omega
  rw [hm]
  have hb := monthLen_bounds y m h1 h2
  exact normDayB_stop 25 y m 1 (by norm_num) le_rfl (by omega)

theorem daysInMonthJS_valid (y m : Int) (h1 : 1 ≤ m) (h2 : m ≤ 12) :
    daysInMonthJS y m = monthLen y m := by
  unfold daysInMonthJS jsMakeDate
  rw [jsMakeDateT_day0 y m h1 h2]
  simp

theorem firstWeekdayJS_day1 (y m : Int) (h1 : 1 ≤ m) (h2 : m ≤ 12) :
    firstWeekdayJS y m = dowNat ⟨y, m, 1⟩ := by
  unfold firstWeekdayJS jsMakeDate
  rw [jsMakeDateT_day1 y m h1 h2]

theorem dowNat_lt (dt : JsDate) : dowNat dt < 7 := by
  unfold dowNat
  omega

/-! ### Helper lemmas about the grid -/

theorem foldl_push {α β : Type} (f : α → β) :
    ∀ (l : List α) (acc : List β),
      l.foldl (fun a i => a ++ [f i]) acc = acc ++ l.map f
  | [], acc => by simp
  | x :: xs, acc => by
    rw [List.foldl_cons, foldl_push f xs, List.map_cons]
    simp

theorem buildGrid_eq (y m : Int) (sel : Option Int) :
    buildGrid y m sel =
      List.replicate (firstWeekdayJS y m) Cell.empty ++
        (List.range (daysInMonthJS y m)).map
          (fun i => Cell.day (i + 1) (selMatch sel (i + 1))) := by
  unfold buildGrid
  rw [foldl_push, foldl_push]
  simp

theorem countP_range (k n : Nat) :
    List.countP (fun i => decide (i = k)) (List.range n) = if k < n then 1 else 0 := by
  induction n with
  | zero => simp
  | succ n ih =>
    rw [List.range_succ, List.countP_append, ih]
    by_cases h : n = k
    · subst h
      rw [if_neg (by omega), if_pos (by omega)]
      simp [List.countP_cons]
    · have hz : List.countP (fun i => decide (i = k)) [n] = 0 := by
        simp [List.countP_cons, h]
      rw [hz]
      split_ifs <;> omega

/-! ### Helper lemmas about the category list -/

theorem mem_jsUniqueAux (x : String) :
    ∀ (l seen : List String), x ∈ jsUniqueAux seen l ↔ x ∈ l ∧ x ∉ seen
  | [], seen => by simp [jsUniqueAux]
  | a :: l, seen => by
    unfold jsUniqueAux
    by_cases h : a ∈ seen
    · rw [if_pos h, mem_jsUniqueAux x l seen]
      constructor
      · rintro ⟨hxl, hxs⟩
        exact ⟨List.mem_cons_of_mem a hxl, hxs⟩
      · rintro ⟨hxal, hxs⟩
        rcases List.mem_cons.mp hxal with rfl | hxl
        · exact absurd h hxs
        · exact ⟨hxl, hxs⟩
    · rw [if_neg h]
      rw [List.mem_cons, mem_jsUniqueAux x l (a :: seen)]
      constructor
      · rintro (rfl | ⟨hxl, hxs⟩)
        · exact ⟨List.mem_cons_self x l, h⟩
        · exact ⟨List.mem_cons_of_mem a hxl,
            fun hc => hxs (List.mem_cons_of_mem a hc)⟩
      · rintro ⟨hxal, hxs⟩
        rcases eq_or_ne x a with rfl | hne
        · exact Or.inl rfl
        · rcases List.mem_cons.mp hxal with rfl | hxl
          · exact absurd rfl hne
          · refine Or.inr ⟨hxl, fun hc => ?_⟩
            rcases List.mem_cons.mp hc with rfl | hcs
            · exact hne rfl
            · exact hxs hcs

theorem nodup_jsUniqueAux : ∀ (l seen : List String), (jsUniqueAux seen l).Nodup
  | [], _ => by simp [jsUniqueAux]
  | a :: l, seen => by
    unfold jsUniqueAux
    by_cases h : a ∈ seen
    · rw [if_pos h]
      exact nodup_jsUniqueAux l seen
    · rw [if_neg h, List.nodup_cons]
      refine ⟨fun hmem => ?_, nodup_jsUniqueAux l (a :: seen)⟩
      rcases (mem_jsUniqueAux a l (a :: seen)).mp hmem with ⟨-, hns⟩
      exact hns (List.mem_cons_self a seen)

theorem mem_jsUnique (x : String) (l : List String) : x ∈ jsUnique l ↔ x ∈ l := by
  unfold jsUnique
  rw [mem_jsUniqueAux]
  simp

theorem nodup_jsUnique (l : List String) : (jsUnique l).Nodup :=
  nodup_jsUniqueAux l []

theorem insertSorted_perm (x : String) :
    ∀ l : List String, List.Perm (insertSorted x l) (x :: l)
  | [] => by simp [insertSorted]
  | y :: ys => by
    unfold insertSorted
    by_cases h : jsStrLt x y
    · rw [if_pos h]
    · rw [if_neg h]
      exact List.Perm.trans (List.Perm.cons y (insertSorted_perm x ys))
        (List.Perm.swap x y ys)

theorem jsSortStrings_perm : ∀ l : List String, List.Perm (jsSortStrings l) l
  | [] => by simp [jsSortStrings]
  | x :: xs => by
    show List.Perm (insertSorted x (List.foldr insertSorted [] xs)) (x :: xs)
    exact List.Perm.trans (insertSorted_perm x _)
      (List.Perm.cons x (jsSortStrings_perm xs))

theorem categoriesList_perm (ts : List Tx) :
    List.Perm (categoriesList ts) (jsUnique (allCategories ts)) :=
  jsSortStrings_perm _

theorem selMatch_nat (s d : Nat) : selMatch (some (s : Int)) d = decide (d = s) := by
  by_cases h : d = s
  · subst h
    simp [selMatch]
  · simp [selMatch, h]

/-! ### Claims -/

/-- C3: for every valid (year, month), `buildGrid` produces exactly
`firstWeekdayOfMonth` leading empty cells — the Sunday-0 weekday index of
day 1 of the month — followed by exactly `daysInMonth` day cells numbered
`1..daysInMonth` in order, so the total cell count is their sum. -/
theorem buildGrid_structure (y m : Int) (sel : Option Int) (h1 : 1 ≤ m) (h2 : m ≤ 12) :
    (buildGrid y m sel).length = firstWeekdayJS y m + daysInMonthJS y m
    ∧ daysInMonthJS y m = monthLen y m
    ∧ firstWeekdayJS y m = dowNat ⟨y, m, 1⟩
    ∧ (∀ i, i < firstWeekdayJS y m → (buildGrid y m sel)[i]? = some Cell.empty)
    ∧ (∀ j, j < daysInMonthJS y m →
        (buildGrid y m sel)[firstWeekdayJS y m + j]? =
          some (Cell.day (j + 1) (selMatch sel (j + 1)))) := by
  refine ⟨?_, daysInMonthJS_valid y m h1 h2, firstWeekdayJS_day1 y m h1 h2, ?_, ?_⟩
  · rw [buildGrid_eq]
    simp
  · intro i hi
    rw [buildGrid_eq, List.getElem?_append]
    rw [if_pos (by simpa using hi)]
    simp [List.getElem?_replicate_of_lt, hi]
  · intro j hj
    rw [buildGrid_eq, List.getElem?_append]
    rw [if_neg (by simp)]
    have hidx : firstWeekdayJS y m + j -
        (List.replicate (firstWeekdayJS y m) Cell.empty).length = j := by
      simp
    rw [hidx, List.getElem?_map, List.getElem?_range hj]
    rfl

/-- Witness for C3 at March 2024. -/
theorem buildGrid_structure_witness :
    (1 : Int) ≤ 3 ∧ (3 : Int) ≤ 12 ∧
    (buildGrid 2024 3 none).length = firstWeekdayJS 2024 3 + daysInMonthJS 2024 3 :=
  ⟨by decide, by decide, (buildGrid_structure 2024 3 none (by decide) (by decide)).1⟩

/-- C4: for positive years and months 1–12, the source's
`new Date(year, month, 0).getDate()` computes the Gregorian day count, with
February governed by the divisible-by-4-except-centuries-not-divisible-by-400
leap rule.  (Year 0 is excluded: there the two-digit-year remapping of the
JS `Date` constructor, not modelled here, would make the runtime answer for
1900 instead; for every year from 1 through 99 that remapping happens to
preserve the day count, and the component only ever passes four-digit
years.) -/
theorem daysInMonth_gregorian (y m : Int) (hy : 1 ≤ y) (h1 : 1 ≤ m) (h2 : m ≤ 12) :
    daysInMonthJS y m = monthLen y m
    ∧ daysInMonthJS y 2 =
        (if (y % 4 = 0 ∧ ¬ y % 100 = 0) ∨ y % 400 = 0 then 29 else 28) := by
  refine ⟨daysInMonthJS_valid y m h1 h2, ?_⟩
  rw [daysInMonthJS_valid y 2 (by norm_num) (by norm_num)]
  have hiff : isLeap y = true ↔ ((y % 4 = 0 ∧ ¬ y % 100 = 0) ∨ y % 400 = 0) := by
    simp [isLeap]
  by_cases hL : ((y % 4 = 0 ∧ ¬ y % 100 = 0) ∨ y % 400 = 0)
  · rw [if_pos hL]
    have ht : isLeap y = true := hiff.mpr hL
    norm_num [monthLen, ht]
  · rw [if_neg hL]
    have ht : isLeap y = false := by
      rcases Bool.eq_false_or_eq_true (isLeap y) with h | h
      · exact absurd (hiff.mp h) hL
      · exact h
    norm_num [monthLen, ht]

/-- Witness for C4: the four February examples of the specification. -/
theorem daysInMonth_gregorian_witness :
    (1 : Int) ≤ 2024 ∧
    daysInMonthJS 2024 2 = 29 ∧ daysInMonthJS 2023 2 = 28 ∧
    daysInMonthJS 2000 2 = 29 ∧ daysInMonthJS 1900 2 = 28 :=
  ⟨by decide,
   by rw [(daysInMonth_gregorian 2024 2 (by decide) (by decide) (by decide)).2]; decide,
   by decide, by decide, by decide⟩

/-- C5: on a state showing a valid month, clicking a day that is valid for
that month stores exactly the clicked `CalendarDate`; no component shifts. -/
theorem resolveDayClick_identity (st : ModalState) (y m dd d : Int)
    (hdate : st.form.date = some ⟨y, m, dd⟩)
    (h1 : 1 ≤ m) (h2 : m ≤ 12) (hd1 : 1 ≤ d) (hd2 : d ≤ (monthLen y m : Int)) :
    resolveDayClick y m d = some ⟨y, m, d⟩
    ∧ (clickDay st d).form.date = some ⟨y, m, d⟩ := by
  have hr : resolveDayClick y m d = some ⟨y, m, d⟩ := by
    unfold resolveDayClick jsParseISO
    rw [if_pos ⟨h1, h2, hd1, hd2⟩]
    rfl
  refine ⟨hr, ?_⟩
  unfold clickDay
  rw [hdate]
  simp [handleDateChange, hr]

/-- Witness for C5: clicking 15 March 2024. -/
theorem resolveDayClick_identity_witness :
    resolveDayClick 2024 3 15 = some ⟨2024, 3, 15⟩
    ∧ (clickDay dateState 15).form.date = some ⟨2024, 3, 15⟩ :=
  resolveDayClick_identity dateState 2024 3 10 15 rfl
    (by decide) (by decide) (by decide) (by decide)

/-- C7: the grid computation is pure and deterministic — it is a function
of the state (no mutation is performed while rendering: every `set...` call
of the source sits inside a click handler, not on the render path), and two
renders from states carrying the same `form.date` produce structurally
identical grids whatever the rest of the state holds. -/
theorem renderGrid_deterministic (st1 st2 : ModalState)
    (h : st1.form.date = st2.form.date) :
    renderDatePickerGrid st1 = renderDatePickerGrid st2 := by
  unfold renderDatePickerGrid
  rw [h]

/-- Witness for C7: two states sharing only the date render the same grid. -/
theorem renderGrid_deterministic_witness :
    renderDatePickerGrid stateA = renderDatePickerGrid stateB :=
  renderGrid_deterministic stateA stateB rfl

/-- C9: saving a custom category whose trimmed value is empty is a silent
no-op — the guard of `handleCustomCategorySave` skips its whole body, so the
category field, both visibility flags and the error map all stay as they
were and no validation error appears. -/
theorem customCategorySave_noop (st : ModalState)
    (h : jsTrim st.customCategory = "") :
    handleCustomCategorySave st = st := by
  unfold handleCustomCategorySave
  rw [if_pos h]

/-- Witness for C9: a whitespace-only custom category changes nothing. -/
theorem customCategorySave_noop_witness :
    handleCustomCategorySave blankCustomState = blankCustomState :=
  customCategorySave_noop blankCustomState (by decide)

/-- C6: with a selected day valid for the displayed month, the grid marks
exactly one cell selected, at position `firstWeekday + selectedDay - 1`; all
other cells are unselected. -/
theorem buildGrid_selected_unique (y m : Int) (sel : Nat)
    (h1 : 1 ≤ m) (h2 : m ≤ 12) (hs1 : 1 ≤ sel) (hs2 : sel ≤ daysInMonthJS y m) :
    (buildGrid y m (some (sel : Int)))[firstWeekdayJS y m + sel - 1]? =
      some (Cell.day sel true)
    ∧ List.countP cellSelected (buildGrid y m (some (sel : Int))) = 1
    ∧ ∀ j, j < (buildGrid y m (some (sel : Int))).length →
        j ≠ firstWeekdayJS y m + sel - 1 →
        cellSelected ((buildGrid y m (some (sel : Int))).getD j Cell.empty) = false := by
  have hgrid := buildGrid_eq y m (some (sel : Int))
  refine ⟨?_, ?_, ?_⟩
  · rw [hgrid, List.getElem?_append]
    rw [if_neg (by simp only [List.length_replicate]; omega)]
    have hidx : firstWeekdayJS y m + sel - 1 -
        (List.replicate (firstWeekdayJS y m) Cell.empty).length = sel - 1 := by
      simp only [List.length_replicate]
      omega
    rw [hidx, List.getElem?_map,
      List.getElem?_range (show sel - 1 < daysInMonthJS y m by omega)]
    have hsel : sel - 1 + 1 = sel := by omega
    simp [hsel, selMatch_nat]
  · rw [hgrid, List.countP_append, List.countP_map]
    have hrep : List.countP cellSelected
        (List.replicate (firstWeekdayJS y m) Cell.empty) = 0 := by
      rw [List.countP_eq_zero]
      intro a ha
      rw [List.eq_of_mem_replicate ha]
      simp [cellSelected]
    have hc : List.countP
        (cellSelected ∘ fun i => Cell.day (i + 1) (selMatch (some (sel : Int)) (i + 1)))
        (List.range (daysInMonthJS y m)) =
        List.countP (fun i => decide (i = sel - 1)) (List.range (daysInMonthJS y m)) := by
      apply List.countP_congr
      intro a _
      simp [Function.comp, cellSelected, selMatch_nat]
      omega
    rw [hrep, hc, countP_range, if_pos (by omega)]
  · intro j hj hne
    rw [hgrid] at hj ⊢
    rw [List.getD_eq_getElem?_getD, List.getElem?_append]
    by_cases hcase : j < (List.replicate (firstWeekdayJS y m) Cell.empty).length
    · rw [if_pos hcase]
      simp only [List.length_replicate] at hcase
      simp [List.getElem?_replicate_of_lt, hcase, cellSelected]
    · rw [if_neg hcase]
      simp only [List.length_replicate] at hcase
      simp only [List.length_append, List.length_replicate, List.length_map,
        List.length_range] at hj
      have hjn : j - firstWeekdayJS y m < daysInMonthJS y m := by omega
      simp only [List.length_replicate]
      rw [List.getElem?_map, List.getElem?_range hjn]
      simp [selMatch_nat, cellSelected]
      omega

/-- Witness for C6 at 15 March 2024. -/
theorem buildGrid_selected_unique_witness :
    (buildGrid 2024 3 (some ((15 : Nat) : Int)))[firstWeekdayJS 2024 3 + 15 - 1]? =
      some (Cell.day 15 true)
    ∧ List.countP cellSelected (buildGrid 2024 3 (some ((15 : Nat) : Int))) = 1 :=
  ⟨(buildGrid_selected_unique 2024 3 15 (by decide) (by decide) (by decide) (by decide)).1,
   (buildGrid_selected_unique 2024 3 15 (by decide) (by decide) (by decide) (by decide)).2.1⟩

/-- C8: the offered category list is the set union of the default categories
and those observed in existing transactions — it contains every default,
every observed category, nothing else, and no duplicates. -/
theorem categories_set_union (ts : List Tx) :
    (∀ c, c ∈ defaultCategories → c ∈ categoriesList ts)
    ∧ (∀ t, t ∈ ts → t.category ∈ categoriesList ts)
    ∧ (∀ c, c ∈ categoriesList ts → c ∈ defaultCategories ∨ ∃ t, t ∈ ts ∧ t.category = c)
    ∧ (categoriesList ts).Nodup := by
  have hperm := categoriesList_perm ts
  have hmem : ∀ c, c ∈ categoriesList ts ↔ c ∈ allCategories ts := by
    intro c
    rw [hperm.mem_iff, mem_jsUnique]
  refine ⟨?_, ?_, ?_, ?_⟩
  · intro c hc
    rw [hmem]
    exact List.mem_append_left _ hc
  · intro t ht
    rw [hmem]
    by_cases hdef : t.category ∈ defaultCategories
    · exact List.mem_append_left _ hdef
    · refine List.mem_append_right _ ?_
      rw [List.mem_filter]
      constructor
      · unfold existingCategories
        rw [mem_jsUnique]
        exact List.mem_map_of_mem _ ht
      · simp [hdef]
  · intro c hc
    rw [hmem] at hc
    rcases List.mem_append.mp hc with h | h
    · exact Or.inl h
    · right
      rw [List.mem_filter] at h
      have hex := h.1
      unfold existingCategories at hex
      rw [mem_jsUnique] at hex
      rcases List.mem_map.mp hex with ⟨t, ht, hcat⟩
      exact ⟨t, ht, hcat⟩
  · exact (hperm.nodup_iff).mpr (nodup_jsUnique _)

/-- Witness for C8: the store category `Coffee` appears and the list stays
duplicate-free. -/
theorem categories_set_union_witness :
    sampleTx.category ∈ categoriesList sampleTxs ∧ (categoriesList sampleTxs).Nodup :=
  ⟨(categories_set_union sampleTxs).2.1 sampleTx (by simp [sampleTxs]),
   (categories_set_union sampleTxs).2.2.2⟩

/-- C1 (amended): the grid builder raises no error at all.  A month outside
1–12 is silently corrected by the rollover of the `Date` constructor — the
grid built for it is exactly the grid of the normalised (year, month), whose
month is back in 1–12 — and a day click outside the valid range yields an
Invalid Date value (`none`), not a raised error; valid inputs go through
unchanged.  The original claim, that `buildGrid` and `resolveDayClick` fail
with an `InvalidDate` error and never silently correct, is refuted by
`buildGrid_invalid_month_no_error`. -/
theorem buildGrid_rollover_amended (y m : Int) (sel : Option Int) (y2 m2 d2 : Int)
    (hinvalid : ¬ (1 ≤ m2 ∧ m2 ≤ 12 ∧ 1 ≤ d2 ∧ d2 ≤ (monthLen y2 m2 : Int))) :
    buildGrid y m sel = buildGrid (normYM y m).1 (normYM y m).2 sel
    ∧ 1 ≤ (normYM y m).2 ∧ (normYM y m).2 ≤ 12
    ∧ resolveDayClick y2 m2 d2 = none := by
  have e1 : (normYM y m).1 * 12 + ((normYM y m).2 - 1) = y * 12 + (m - 1) := by
    unfold normYM
    omega
  have e2 : (normYM y m).1 * 12 + (normYM y m).2 = y * 12 + m := by
    unfold normYM
    omega
  have hfw : firstWeekdayJS (normYM y m).1 (normYM y m).2 = firstWeekdayJS y m := by
    unfold firstWeekdayJS jsMakeDate
    rw [e1]
  have hdim : daysInMonthJS (normYM y m).1 (normYM y m).2 = daysInMonthJS y m := by
    unfold daysInMonthJS jsMakeDate
    rw [e2]
  refine ⟨?_, by unfold normYM; omega, by unfold normYM; omega, ?_⟩
  · rw [buildGrid_eq, buildGrid_eq, hfw, hdim]
  · unfold resolveDayClick jsParseISO
    rw [if_neg hinvalid]
    rfl

/-- Witness for C1 (amended): month 13 of 2024 builds the normalised grid,
and clicking the invalid day 30 February 2024 yields Invalid Date. -/
theorem buildGrid_rollover_amended_witness :
    buildGrid 2024 13 none = buildGrid (normYM 2024 13).1 (normYM 2024 13).2 none
    ∧ resolveDayClick 2024 2 30 = none :=
  ⟨(buildGrid_rollover_amended 2024 13 none 2024 2 30 (by decide)).1,
   (buildGrid_rollover_amended 2024 13 none 2024 2 30 (by decide)).2.2.2⟩

/-- Counterexample to C1 as stated: at the invalid month 13 of 2024 the
builder does not fail and no `InvalidDate` condition exists — the code
silently corrects, producing the 3 + 31 cells of January 2025 (the grid
equals the one built for the valid pair (2025, 1)). -/
theorem buildGrid_invalid_month_no_error :
    daysInMonthJS 2024 13 = 31
    ∧ firstWeekdayJS 2024 13 = 3
    ∧ buildGrid 2024 13 none = buildGrid 2025 1 none :=
  ⟨by decide, by decide, by decide⟩

/-- C2 (code bug): month navigation goes through JS `setMonth`, which keeps
the day-of-month and rolls an overflow into the following month, so the
result is not pure month arithmetic and depends on the selected day.  From
31 March 2024 the previous-month button lands on 2 March 2024 — the month
does not change to February at all.  (With a day that exists in the target
month the navigation does match the claim, as the two examples at day 15
show.) -/
theorem shiftMonth_day_overflow_bug :
    shiftMonthJS ⟨2024, 3, 31⟩ (-1) = ⟨2024, 3, 2⟩
    ∧ ¬ (shiftMonthJS ⟨2024, 3, 31⟩ (-1)).month = 2
    ∧ shiftMonthJS ⟨2024, 1, 15⟩ (-1) = ⟨2023, 12, 15⟩
    ∧ shiftMonthJS ⟨2024, 12, 15⟩ 1 = ⟨2025, 1, 15⟩ :=
  ⟨by decide, by decide, by decide, by decide⟩

/-- C10 (code bug): with the amount field holding `.` (reachable by pasting
`..`, which the sanitiser reduces to `.`) and a valid category, `parseFloat`
yields `NaN`; since `NaN <= 0` is false, `validateForm` reports no error and
`handleSubmit` dispatches one record whose amount is `NaN` — although the
field has no numeric value greater than zero. -/
theorem submit_nan_amount_bug :
    jsParseFloat "." = none
    ∧ validateForm dotAmountState.form = { amount := none, category := none }
    ∧ (handleSubmit ⟨2024, 3, 16⟩ 99 dotAmountState).2 =
        [{ id := 99, amount := none, category := "Food", type := "Expense",
           date := some ⟨2024, 3, 15⟩, note := "" }] :=
  ⟨by decide, by decide, by decide⟩

end SmartLog
